import Mathlib

/-!
Shallow embedding of the core of `options_analyzer.py`: the contract filter
(`filter_options_by_investment`), the return ranker
(`calculate_annualized_returns`) and the scenario evaluator
(`calculate_option_value`).

Modelling conventions:
* Python floats are modelled as exact rationals (`ℚ`); the transcendental
  annualization power `(1 + r/100) ** (365/d)` is modelled over the reals
  with `Real.rpow`.
* Calendar dates are modelled as integer day numbers, so `(exp_date -
  today).days` becomes integer subtraction.
* Python runtime failures that the source can actually hit are modelled
  explicitly: an unknown strategy string leaves `contract_cost` /
  `investment` unbound and raises `NameError`; arithmetic on a missing
  (`None`) stock price raises `TypeError`; float division by zero raises
  `ZeroDivisionError`.  A function that can raise returns `Except PyError`.
* Python `list.sort` is a stable sort; it is modelled by `List.mergeSort`
  (stable) with the corresponding boolean comparator, and
  `sort(key=..., reverse=True)` by the comparator with swapped arguments,
  which matches CPython semantics (descending, ties keep original order).
-/

namespace OptionsAnalyzer

/-- Runtime errors the modelled Python code can raise. -/
inductive PyError where
  | nameError
  | typeError
  | zeroDivisionError
deriving DecidableEq, Repr

/-- One row of the options chain: `option['strike']` and
`option['lastPrice']` are the only fields the core computations read. -/
structure Contract where
  strike : ℚ
  premium : ℚ
deriving DecidableEq, Repr

/-- The dictionary `filter_options_by_investment` appends for each kept
option (lines 140-147).  Note it has *no* `stock_price` key. -/
structure Candidate where
  strike : ℚ
  premium : ℚ
  breakeven : ℚ
  cost : ℚ
  remaining_budget : ℚ
deriving DecidableEq, Repr

/-- Lines 115-136 of `filter_options_by_investment`: the per-strategy
cost, breakeven and breakeven-admissibility computation.  An unrecognised
strategy leaves `contract_cost` unbound, so the membership test at line
139 raises `NameError`; `covered_call` with `stock_price = None` raises
`TypeError` at `stock_price * 100`. -/
def costBreakeven (strategy : String) (strike premium : ℚ)
    (stock_price target_breakeven : Option ℚ) :
    Except PyError (ℚ × ℚ × Bool) :=
  if strategy = "call" then
    let contract_cost := premium * 100
    let breakeven := strike + premium
    let meets := match target_breakeven with
      | none => true
      | some t => decide (breakeven < t)
    .ok (contract_cost, breakeven, meets)
  else if strategy = "put" then
    let contract_cost := premium * 100
    let breakeven := strike - premium
    let meets := match target_breakeven with
      | none => true
      | some t => decide (breakeven > t)
    .ok (contract_cost, breakeven, meets)
  else if strategy = "covered_call" then
    match stock_price with
    | none => .error .typeError
    | some s =>
      let contract_cost := s * 100 - premium * 100
      let breakeven := s - premium
      let meets := match target_breakeven with
        | none => true
        | some t => decide (breakeven < t)
      .ok (contract_cost, breakeven, meets)
  else if strategy = "cash_secured_put" then
    let contract_cost := strike * 100 - premium * 100
    let breakeven := strike - premium
    let meets := match target_breakeven with
      | none => true
      | some t => decide (breakeven > t)
    .ok (contract_cost, breakeven, meets)
  else .error .nameError

/-- The filtering loop of `filter_options_by_investment` (lines 110-147),
before the final sort: options are visited in input order and the kept
candidates retain that order. -/
def filterLoop (strategy : String) (investment_amount : ℚ)
    (stock_price target_breakeven : Option ℚ) :
    List Contract → Except PyError (List Candidate)
  | [] => .ok []
  | o :: rest =>
    match costBreakeven strategy o.strike o.premium stock_price target_breakeven with
    | .error e => .error e
    | .ok (contract_cost, breakeven, meets) =>
      match filterLoop strategy investment_amount stock_price target_breakeven rest with
      | .error e => .error e
      | .ok tail =>
        if contract_cost ≤ investment_amount ∧ meets = true then
          .ok ({ strike := o.strike, premium := o.premium, breakeven := breakeven,
                 cost := contract_cost,
                 remaining_budget := investment_amount - contract_cost } :: tail)
        else
          .ok tail

/-- Comparator of the final `filtered_options.sort(key=lambda x: x['strike'])`:
stable ascending sort on strike. -/
def strikeLE (a b : Candidate) : Bool := decide (a.strike ≤ b.strike)

/-- `filter_options_by_investment` (lines 106-151). -/
def filter_options_by_investment (options : List Contract) (strategy : String)
    (investment_amount : ℚ) (stock_price target_breakeven : Option ℚ) :
    Except PyError (List Candidate) :=
  (filterLoop strategy investment_amount stock_price target_breakeven options).map
    (fun l => l.mergeSort strikeLE)

/-- Day-count of `calculate_annualized_returns` (lines 456-458):
`max(1, (exp_date - today).days)`. -/
def ranker_days (expDate today : ℤ) : ℤ := max 1 (expDate - today)

/-- Day-count of `calculate_option_value` (lines 303-307):
`(exp_date - today).days`, replaced by 1 when `≤ 0`. -/
def evaluator_days (expDate today : ℤ) : ℤ :=
  let d := expDate - today
  if d ≤ 0 then 1 else d

/-- The annualization formula shared by both routines (lines 328, 349,
369, 387, 504): `((1 + pct/100) ** (365/days) - 1) * 100`, modelled with
the real power `Real.rpow`. -/
noncomputable def annualize (percent_return : ℚ) (days : ℤ) : ℝ :=
  (Real.rpow (1 + (percent_return : ℝ) / 100) ((365 : ℝ) / (days : ℝ)) - 1) * 100

/-- One element of the `results` list of `calculate_annualized_returns`
(lines 509-517). -/
structure RankedResult where
  strike : ℚ
  premium : ℚ
  breakeven : ℚ
  profit : ℚ
  percent_return : ℚ
  annualized_return : ℝ

/-- Lines 466-499 of `calculate_annualized_returns`: the per-strategy
`(option_value, profit, investment)` triple for one filtered option.
In the `covered_call` branch the source reads
`opt.get('stock_price', strike)`; the filter's dictionaries never carry a
`stock_price` key (see `Candidate`), so the fallback `strike` is always
taken.  An unrecognised strategy leaves `investment` unbound and line 502
raises `NameError`. -/
def profitInvestment (strategy : String) (target_price : ℚ) (opt : Candidate) :
    Except PyError (ℚ × ℚ × ℚ) :=
  if strategy = "call" then
    let option_value := if target_price > opt.strike then target_price - opt.strike else 0
    let profit := option_value - opt.premium
    .ok (option_value, profit, opt.premium)
  else if strategy = "put" then
    let option_value := if target_price < opt.strike then opt.strike - target_price else 0
    let profit := option_value - opt.premium
    .ok (option_value, profit, opt.premium)
  else if strategy = "covered_call" then
    let current_price := opt.strike
    let stock_profit := target_price - current_price
    let option_value := if target_price > opt.strike then -(target_price - opt.strike) else 0
    let profit := stock_profit + opt.premium + option_value
    .ok (option_value, profit, current_price)
  else if strategy = "cash_secured_put" then
    let option_value := if target_price < opt.strike then -(opt.strike - target_price) else 0
    let profit := opt.premium + option_value
    .ok (option_value, profit, opt.strike)
  else .error .nameError

/-- Lines 461-517 of `calculate_annualized_returns`: the record built for
one filtered option, including the `investment > 0` guard of lines
501-507. -/
noncomputable def rankOne (strategy : String) (days : ℤ) (target_price : ℚ)
    (opt : Candidate) : Except PyError RankedResult :=
  match profitInvestment strategy target_price opt with
  | .error e => .error e
  | .ok (_, profit, investment) =>
    if 0 < investment then
      let percent_return := profit / investment * 100
      .ok { strike := opt.strike, premium := opt.premium, breakeven := opt.breakeven,
            profit := profit, percent_return := percent_return,
            annualized_return := annualize percent_return days }
    else
      .ok { strike := opt.strike, premium := opt.premium, breakeven := opt.breakeven,
            profit := profit, percent_return := 0, annualized_return := 0 }

/-- Comparator of `results.sort(key=lambda x: x['annualized_return'],
reverse=True)`: stable descending sort, i.e. `a` may precede `b` iff
`b.annualized_return ≤ a.annualized_return`. -/
noncomputable def annualizedDesc (a b : RankedResult) : Bool :=
  decide (b.annualized_return ≤ a.annualized_return)

/-- The `for opt in filtered_options` loop of `calculate_annualized_returns`
(lines 460-517): each candidate is processed in order and a raised error
aborts the whole call. -/
noncomputable def rankLoop (strategy : String) (days : ℤ) (target_price : ℚ) :
    List Candidate → Except PyError (List RankedResult)
  | [] => .ok []
  | opt :: rest =>
    match rankOne strategy days target_price opt with
    | .error e => .error e
    | .ok r =>
      match rankLoop strategy days target_price rest with
      | .error e => .error e
      | .ok rs => .ok (r :: rs)

/-- `calculate_annualized_returns` (lines 454-521). -/
noncomputable def calculate_annualized_returns (filtered_options : List Candidate)
    (strategy : String) (target_price : ℚ) (expDate today : ℤ) :
    Except PyError (List RankedResult) :=
  (rankLoop strategy (ranker_days expDate today) target_price filtered_options).map
    (fun results => results.mergeSort annualizedDesc)

/-- The parts of the `selected_data` dictionary that
`calculate_option_value` reads: `stock_price` (possibly `None`) and the
selected contract's strike and premium (`call_strike`/`put_strike`,
`call_option['lastPrice']`/`put_option['lastPrice']`). -/
structure SelectedData where
  stock_price : Option ℚ
  strike : ℚ
  premium : ℚ
deriving DecidableEq, Repr

/-- The dictionary `calculate_option_value` returns (lines 389-399). -/
structure EvalResult where
  days_to_expiration : ℤ
  strike : ℚ
  premium : ℚ
  value_at_expiration : ℚ
  profit : ℚ
  percent_return : ℚ
  annualized_return : ℝ

/-- `calculate_option_value` (lines 296-399).  The `covered_call` branch
subtracts a possibly-`None` `current_price` (`TypeError`) and divides by
it unguarded (`ZeroDivisionError` when it is 0); the `cash_secured_put`
branch divides by `strike` unguarded. -/
noncomputable def calculate_option_value (strategy : String) (future_price : ℚ)
    (selected_data : SelectedData) (expDate today : ℤ) :
    Except PyError EvalResult :=
  let days := evaluator_days expDate today
  if strategy = "call" then
    let strike := selected_data.strike
    let premium := selected_data.premium
    let value := if future_price > strike then future_price - strike else 0
    let profit := value - premium
    let percent_return := if premium > 0 then profit / premium * 100 else 0
    .ok { days_to_expiration := days, strike := strike, premium := premium,
          value_at_expiration := value, profit := profit,
          percent_return := percent_return,
          annualized_return := annualize percent_return days }
  else if strategy = "put" then
    let strike := selected_data.strike
    let premium := selected_data.premium
    let value := if future_price < strike then strike - future_price else 0
    let profit := value - premium
    let percent_return := if premium > 0 then profit / premium * 100 else 0
    .ok { days_to_expiration := days, strike := strike, premium := premium,
          value_at_expiration := value, profit := profit,
          percent_return := percent_return,
          annualized_return := annualize percent_return days }
  else if strategy = "covered_call" then
    match selected_data.stock_price with
    | none => .error .typeError
    | some current_price =>
      let strike := selected_data.strike
      let premium := selected_data.premium
      let stock_profit := future_price - current_price
      let option_value := if future_price > strike then -(future_price - strike) else 0
      let profit := stock_profit + premium + option_value
      if current_price = 0 then .error .zeroDivisionError
      else
        let percent_return := profit / current_price * 100
        .ok { days_to_expiration := days, strike := strike, premium := premium,
              value_at_expiration := option_value, profit := profit,
              percent_return := percent_return,
              annualized_return := annualize percent_return days }
  else if strategy = "cash_secured_put" then
    let strike := selected_data.strike
    let premium := selected_data.premium
    let option_value := if future_price < strike then -(strike - future_price) else 0
    let profit := premium + option_value
    if strike = 0 then .error .zeroDivisionError
    else
      let percent_return := profit / strike * 100
      .ok { days_to_expiration := days, strike := strike, premium := premium,
            value_at_expiration := option_value, profit := profit,
            percent_return := percent_return,
            annualized_return := annualize percent_return days }
  else .error .nameError

/-- Projection used to compare the two stages: the (profit, percent
return, annualized return) triple of a ranker record. -/
noncomputable def rankTriple (r : RankedResult) : ℚ × ℚ × ℝ :=
  (r.profit, r.percent_return, r.annualized_return)

/-- Projection used to compare the two stages: the (profit, percent
return, annualized return) triple of an evaluator record. -/
noncomputable def evalTriple (r : EvalResult) : ℚ × ℚ × ℝ :=
  (r.profit, r.percent_return, r.annualized_return)

/-! ### Helper lemmas -/

/-- Both day-count computations agree. -/
theorem days_eq (e t : ℤ) : ranker_days e t = evaluator_days e t := by
  simp only [ranker_days, evaluator_days]
  omega

/-- Annualizing a zero percent return yields zero. -/
theorem annualize_zero (d : ℤ) : annualize 0 d = 0 := by
  simp [annualize]

/-- The strike comparator is transitive. -/
theorem strikeLE_trans (a b c : Candidate) (h1 : strikeLE a b) (h2 : strikeLE b c) :
    strikeLE a c := by
  simp only [strikeLE, decide_eq_true_eq] at *
  exact le_trans h1 h2

/-- The strike comparator is total. -/
theorem strikeLE_total (a b : Candidate) : strikeLE a b || strikeLE b a := by
  simp only [strikeLE]
  rcases le_total a.strike b.strike with h | h <;> simp [h]

/-- The descending annualized-return comparator is transitive. -/
theorem annualizedDesc_trans (a b c : RankedResult) (h1 : annualizedDesc a b)
    (h2 : annualizedDesc b c) : annualizedDesc a c := by
  simp only [annualizedDesc, decide_eq_true_eq] at *
  exact le_trans h2 h1

/-- The descending annualized-return comparator is total. -/
theorem annualizedDesc_total (a b : RankedResult) :
    annualizedDesc a b || annualizedDesc b a := by
  simp only [annualizedDesc]
  rcases le_total a.annualized_return b.annualized_return with h | h <;> simp [h]

/-- Soundness of the filtering loop: every kept candidate satisfies the
budget test, records its remaining budget, and stems from an input
contract whose cost/breakeven computation succeeded with an admissible
breakeven. -/
theorem filterLoop_sound {s : String} {inv : ℚ} {sp tb : Option ℚ} :
    ∀ {opts : List Contract} {k : List Candidate},
      filterLoop s inv sp tb opts = .ok k →
      ∀ c ∈ k, c.cost ≤ inv ∧ c.remaining_budget = inv - c.cost ∧
        ∃ o ∈ opts, c.strike = o.strike ∧ c.premium = o.premium ∧
          costBreakeven s o.strike o.premium sp tb = .ok (c.cost, c.breakeven, true)
  | [], k, h => by
    simp only [filterLoop, Except.ok.injEq] at h
    subst h
    intro c hc
    cases hc
  | o :: rest, k, h => by
    rw [filterLoop] at h
    cases hcb : costBreakeven s o.strike o.premium sp tb with
    | error e => simp [hcb] at h
    | ok v =>
      obtain ⟨cost, be, meets⟩ := v
      simp only [hcb] at h
      cases hrec : filterLoop s inv sp tb rest with
      | error e => simp [hrec] at h
      | ok tail =>
        simp only [hrec] at h
        by_cases hkeep : cost ≤ inv ∧ meets = true
        · rw [if_pos hkeep] at h
          cases h
          intro c hc
          rcases List.mem_cons.mp hc with rfl | hc
          · refine ⟨hkeep.1, rfl, o, List.mem_cons_self .., rfl, rfl, ?_⟩
            rw [hcb, hkeep.2]
          · obtain ⟨h1, h2, o2, ho2, rest2⟩ := filterLoop_sound hrec c hc
            exact ⟨h1, h2, o2, List.mem_cons_of_mem _ ho2, rest2⟩
        · rw [if_neg hkeep] at h
          cases h
          intro c hc
          obtain ⟨h1, h2, o2, ho2, rest2⟩ := filterLoop_sound hrec c hc
          exact ⟨h1, h2, o2, List.mem_cons_of_mem _ ho2, rest2⟩

/-- A successful filter run is the stable strike-sort of a successful
filtering loop. -/
theorem filter_ok_cases {opts : List Contract} {s : String} {inv : ℚ}
    {sp tb : Option ℚ} {l : List Candidate}
    (h : filter_options_by_investment opts s inv sp tb = .ok l) :
    ∃ k, filterLoop s inv sp tb opts = .ok k ∧ l = k.mergeSort strikeLE := by
  unfold filter_options_by_investment at h
  cases hL : filterLoop s inv sp tb opts with
  | error e => rw [hL] at h; cases h
  | ok k =>
    rw [hL] at h
    exact ⟨k, rfl, (Except.ok.inj h).symm⟩

/-- A kept call candidate with a breakeven target satisfies the strict
breakeven bound. -/
theorem call_breakeven_lt {K P c be T : ℚ} {sp : Option ℚ}
    (h : costBreakeven "call" K P sp (some T) = .ok (c, be, true)) : K + P < T := by
  simp [costBreakeven] at h
  exact h.2.2

/-- A kept put candidate with a breakeven target satisfies the strict
breakeven bound. -/
theorem put_breakeven_gt {K P c be T : ℚ} {sp : Option ℚ}
    (h : costBreakeven "put" K P sp (some T) = .ok (c, be, true)) : K - P > T := by
  simp [costBreakeven] at h
  exact h.2.2

/-- Without a breakeven target, the admissibility flag is always true. -/
theorem meets_true_of_no_target {s : String} {K P c be : ℚ} {sp : Option ℚ} {m : Bool}
    (h : costBreakeven s K P sp none = .ok (c, be, m)) : m = true := by
  unfold costBreakeven at h
  split at h
  · simp at h
    exact h.2.2
  · split at h
    · simp at h
      exact h.2.2
    · split at h
      · cases sp with
        | none => cases h
        | some s0 =>
          simp at h
          exact h.2.2
      · split at h
        · simp at h
          exact h.2.2
        · cases h

/-- A successful ranking loop preserves the list length. -/
theorem rankLoop_length {s : String} {d : ℤ} {F : ℚ} :
    ∀ {opts : List Candidate} {pre : List RankedResult},
      rankLoop s d F opts = .ok pre → pre.length = opts.length
  | [], pre, h => by
    simp only [rankLoop, Except.ok.injEq] at h
    subst h
    rfl
  | opt :: rest, pre, h => by
    rw [rankLoop] at h
    cases hf : rankOne s d F opt with
    | error e => simp [hf] at h
    | ok r =>
      simp only [hf] at h
      cases hrec : rankLoop s d F rest with
      | error e => simp [hrec] at h
      | ok rs =>
        simp only [hrec, Except.ok.injEq] at h
        subst h
        simp [rankLoop_length hrec]

/-- The strategy strings are pairwise distinct (put vs call). -/
theorem put_ne_call : ("put" : String) ≠ "call" := by decide

/-- The strategy strings are pairwise distinct (covered call vs call). -/
theorem cc_ne_call : ("covered_call" : String) ≠ "call" := by decide

/-- The strategy strings are pairwise distinct (covered call vs put). -/
theorem cc_ne_put : ("covered_call" : String) ≠ "put" := by decide

/-- The strategy strings are pairwise distinct (cash-secured put vs call). -/
theorem csp_ne_call : ("cash_secured_put" : String) ≠ "call" := by decide

/-- The strategy strings are pairwise distinct (cash-secured put vs put). -/
theorem csp_ne_put : ("cash_secured_put" : String) ≠ "put" := by decide

/-- The strategy strings are pairwise distinct (cash-secured put vs
covered call). -/
theorem csp_ne_cc : ("cash_secured_put" : String) ≠ "covered_call" := by decide

/-- Ranker and evaluator agree on the (profit, percent return, annualized
return) triple for a long call. -/
theorem ranker_eval_call (K P be co rb F : ℚ) (sp : Option ℚ) (e t : ℤ) :
    (rankOne "call" (ranker_days e t) F ⟨K, P, be, co, rb⟩).map rankTriple
      = (calculate_option_value "call" F ⟨sp, K, P⟩ e t).map evalTriple := by
  simp only [rankOne, profitInvestment, calculate_option_value, days_eq,
    rankTriple, evalTriple]
  by_cases hP : 0 < P
  · simp [hP, Except.map, rankTriple, evalTriple]
  · simp [hP, Except.map, annualize_zero, rankTriple, evalTriple]

/-- Ranker and evaluator agree on the (profit, percent return, annualized
return) triple for a long put. -/
theorem ranker_eval_put (K P be co rb F : ℚ) (sp : Option ℚ) (e t : ℤ) :
    (rankOne "put" (ranker_days e t) F ⟨K, P, be, co, rb⟩).map rankTriple
      = (calculate_option_value "put" F ⟨sp, K, P⟩ e t).map evalTriple := by
  simp only [rankOne, profitInvestment, calculate_option_value, days_eq,
    rankTriple, evalTriple]
  by_cases hP : 0 < P
  · simp [hP, Except.map, put_ne_call, rankTriple, evalTriple]
  · simp [hP, Except.map, annualize_zero, put_ne_call, rankTriple, evalTriple]

/-- Ranker and evaluator agree on the triple for a cash-secured put with
positive strike. -/
theorem ranker_eval_csp (K P be co rb F : ℚ) (sp : Option ℚ) (e t : ℤ) (hK : 0 < K) :
    (rankOne "cash_secured_put" (ranker_days e t) F ⟨K, P, be, co, rb⟩).map rankTriple
      = (calculate_option_value "cash_secured_put" F ⟨sp, K, P⟩ e t).map evalTriple := by
  simp only [rankOne, profitInvestment, calculate_option_value, days_eq,
    rankTriple, evalTriple]
  simp [hK, hK.ne.symm, Except.map, csp_ne_call, csp_ne_put, csp_ne_cc,
    rankTriple, evalTriple]

/-- Ranker and evaluator agree on the triple for a covered call whose
entry stock price happens to equal the strike. -/
theorem ranker_eval_cc (K P be co rb F : ℚ) (e t : ℤ) (hK : 0 < K) :
    (rankOne "covered_call" (ranker_days e t) F ⟨K, P, be, co, rb⟩).map rankTriple
      = (calculate_option_value "covered_call" F ⟨some K, K, P⟩ e t).map evalTriple := by
  simp only [rankOne, profitInvestment, calculate_option_value, days_eq,
    rankTriple, evalTriple]
  simp [hK, hK.ne.symm, Except.map, cc_ne_call, cc_ne_put, rankTriple, evalTriple]

/-- Bounds on the percent-return arithmetic of a long option: with a
non-negative payoff and positive premium, profit is at least the premium
lost, the percent return is at least -100 and the annualization base is
non-negative. -/
theorem pct_bounds {v P : ℚ} (hv : 0 ≤ v) (hP : 0 < P) :
    -P ≤ v - P ∧ -100 ≤ (v - P) / P * 100 ∧ 0 ≤ 1 + ((v - P) / P * 100) / 100 := by
  refine ⟨by linarith, ?_, ?_⟩
  · rw [div_mul_eq_mul_div, le_div_iff₀ hP]
    linarith
  · have h1 : ((v - P) / P * 100) / 100 = (v - P) / P := by ring
    have h2 : 1 + (v - P) / P = v / P := by
      field_simp
    rw [h1, h2]
    exact div_nonneg hv hP.le

/-! ### Claims -/

/-- Claim C1, counterexample: for a covered call the two stages disagree.
The filter stores no stock price in its candidate dictionaries, so the
ranker's `opt.get('stock_price', strike)` always falls back to the
strike, while the evaluator uses the real entry price from
`selected_data`.  With strike 100, premium 5, entry price 50 and future
price 50 the ranker reports profit -45 while the evaluator reports
profit 5. -/
theorem c1_counterexample :
    (rankOne "covered_call" (ranker_days 10 0) 50 ⟨100, 5, 95, 4500, 0⟩).map rankTriple
      ≠ (calculate_option_value "covered_call" 50 ⟨some 50, 100, 5⟩ 10 0).map evalTriple := by
  norm_num [rankOne, profitInvestment, calculate_option_value, ranker_days,
    evaluator_days, Except.map, rankTriple, evalTriple, cc_ne_call, cc_ne_put]

/-- Claim C1 (amended): the Return Ranker and the Scenario Evaluator
compute the same profit, percent return and annualized return for long
calls and long puts unconditionally; for cash-secured puts whenever the
strike is positive; and for covered calls only in the special case where
the entry underlying price equals the (positive) strike, because the
ranker substitutes the strike for the stock price missing from the
filter's candidate records. -/
theorem c1_shared_policy_amended (K P be co rb F : ℚ) (sp : Option ℚ) (e t : ℤ) :
    ((rankOne "call" (ranker_days e t) F ⟨K, P, be, co, rb⟩).map rankTriple
      = (calculate_option_value "call" F ⟨sp, K, P⟩ e t).map evalTriple) ∧
    ((rankOne "put" (ranker_days e t) F ⟨K, P, be, co, rb⟩).map rankTriple
      = (calculate_option_value "put" F ⟨sp, K, P⟩ e t).map evalTriple) ∧
    (0 < K →
      (rankOne "cash_secured_put" (ranker_days e t) F ⟨K, P, be, co, rb⟩).map rankTriple
        = (calculate_option_value "cash_secured_put" F ⟨sp, K, P⟩ e t).map evalTriple) ∧
    (0 < K →
      (rankOne "covered_call" (ranker_days e t) F ⟨K, P, be, co, rb⟩).map rankTriple
        = (calculate_option_value "covered_call" F ⟨some K, K, P⟩ e t).map evalTriple) :=
  ⟨ranker_eval_call K P be co rb F sp e t, ranker_eval_put K P be co rb F sp e t,
    fun hK => ranker_eval_csp K P be co rb F sp e t hK,
    fun hK => ranker_eval_cc K P be co rb F e t hK⟩

/-- Claim C1, witness: the amended statement at strike 100, premium 5,
future price 120, a 30-day horizon, with the inner positivity hypotheses
discharged. -/
theorem c1_witness :
    ((rankOne "call" (ranker_days 30 0) 120 ⟨100, 5, 105, 500, 0⟩).map rankTriple
      = (calculate_option_value "call" 120 ⟨none, 100, 5⟩ 30 0).map evalTriple) ∧
    ((rankOne "put" (ranker_days 30 0) 120 ⟨100, 5, 105, 500, 0⟩).map rankTriple
      = (calculate_option_value "put" 120 ⟨none, 100, 5⟩ 30 0).map evalTriple) ∧
    ((rankOne "cash_secured_put" (ranker_days 30 0) 120 ⟨100, 5, 105, 500, 0⟩).map rankTriple
      = (calculate_option_value "cash_secured_put" 120 ⟨none, 100, 5⟩ 30 0).map evalTriple) ∧
    ((rankOne "covered_call" (ranker_days 30 0) 120 ⟨100, 5, 105, 500, 0⟩).map rankTriple
      = (calculate_option_value "covered_call" 120 ⟨some 100, 100, 5⟩ 30 0).map evalTriple) := by
  obtain ⟨h1, h2, h3, h4⟩ := c1_shared_policy_amended 100 5 105 500 0 120 none 30 0
  exact ⟨h1, h2, h3 (by norm_num), h4 (by norm_num)⟩

/-- Claim C2, counterexample: with the strategy string "straddle", which
is outside the four-member enumeration, and an empty contract sequence,
the filter returns a result (the empty list) instead of failing: the
unknown-strategy error can only be raised inside the per-contract loop
body, which never runs on empty input. -/
theorem c2_counterexample :
    filter_options_by_investment [] "straddle" 100 none none = .ok [] := by
  simp [filter_options_by_investment, filterLoop, Except.map]

/-- Claim C2 (amended): for every strategy value outside the enumeration
and every NON-EMPTY input contract sequence, the filter fails with a
fatal error (the `NameError` raised when the membership test reads the
never-assigned `contract_cost`, playing the role of the spec's
InvalidStrategy) rather than returning a result; on an empty input it
returns the empty list without error. -/
theorem c2_invalid_strategy_amended (s : String) (inv : ℚ) (sp tb : Option ℚ)
    (opts : List Contract)
    (hs : s ∉ (["call", "put", "covered_call", "cash_secured_put"] : List String))
    (hne : opts ≠ []) :
    filter_options_by_investment opts s inv sp tb = .error .nameError := by
  match opts with
  | [] => exact absurd rfl hne
  | o :: rest =>
    have h1 : s ≠ "call" := fun hh => hs (by simp [hh])
    have h2 : s ≠ "put" := fun hh => hs (by simp [hh])
    have h3 : s ≠ "covered_call" := fun hh => hs (by simp [hh])
    have h4 : s ≠ "cash_secured_put" := fun hh => hs (by simp [hh])
    have hcb : costBreakeven s o.strike o.premium sp tb = .error .nameError := by
      simp [costBreakeven, h1, h2, h3, h4]
    simp [filter_options_by_investment, filterLoop, hcb, Except.map]

/-- Claim C2, witness: the amended statement at the concrete strategy
"straddle" and a one-contract input. -/
theorem c2_witness :
    ("straddle" ∉ (["call", "put", "covered_call", "cash_secured_put"] : List String)) ∧
    ([(⟨1, 1⟩ : Contract)] ≠ []) ∧
    filter_options_by_investment [⟨1, 1⟩] "straddle" 100 none none = .error .nameError :=
  ⟨by decide, by decide,
    c2_invalid_strategy_amended "straddle" 100 none none [⟨1, 1⟩] (by decide) (by decide)⟩

/-- Claim C3, counterexample: the Scenario Evaluator does not report a
zero percent return on a degenerate (negative) investment base.  For a
covered call with entry price -10, strike 5, premium 1 and future price
10 the base is -10 ≤ 0, yet the evaluator divides by it and reports
percent return -160 instead of 0. -/
theorem c3_counterexample :
    (calculate_option_value "covered_call" 10 ⟨some (-10), 5, 1⟩ 10 0).map
      (fun r => r.percent_return) ≠ .ok 0 := by
  norm_num [calculate_option_value, evaluator_days, Except.map, cc_ne_call, cc_ne_put]

/-- Claim C3 (amended): the Return Ranker reports percent return 0 and
annualized return 0 whenever its investment base (premium for long
calls/puts, strike for covered calls and cash-secured puts) is 0 or
negative, for all four strategies.  The Scenario Evaluator does so only
for long calls and long puts (base = premium); for covered calls and
cash-secured puts it divides by the base unguarded: a zero base raises a
division-by-zero error and a negative base yields a nonzero percent
return (see the counterexample). -/
theorem c3_degenerate_base_amended (d : ℤ) (F : ℚ) (opt : Candidate)
    (sd : SelectedData) (K P : ℚ) (sp : Option ℚ) (e t : ℤ) :
    (opt.premium ≤ 0 → (rankOne "call" d F opt).map
      (fun r => (r.percent_return, r.annualized_return)) = .ok (0, 0)) ∧
    (opt.premium ≤ 0 → (rankOne "put" d F opt).map
      (fun r => (r.percent_return, r.annualized_return)) = .ok (0, 0)) ∧
    (opt.strike ≤ 0 → (rankOne "covered_call" d F opt).map
      (fun r => (r.percent_return, r.annualized_return)) = .ok (0, 0)) ∧
    (opt.strike ≤ 0 → (rankOne "cash_secured_put" d F opt).map
      (fun r => (r.percent_return, r.annualized_return)) = .ok (0, 0)) ∧
    (sd.premium ≤ 0 → (calculate_option_value "call" F sd e t).map
      (fun r => (r.percent_return, r.annualized_return)) = .ok (0, 0)) ∧
    (sd.premium ≤ 0 → (calculate_option_value "put" F sd e t).map
      (fun r => (r.percent_return, r.annualized_return)) = .ok (0, 0)) ∧
    (calculate_option_value "covered_call" F ⟨some 0, K, P⟩ e t
      = .error .zeroDivisionError) ∧
    (calculate_option_value "cash_secured_put" F ⟨sp, 0, P⟩ e t
      = .error .zeroDivisionError) := by
  refine ⟨?_, ?_, ?_, ?_, ?_, ?_, ?_, ?_⟩
  · intro h
    simp [rankOne, profitInvestment, not_lt.mpr h, Except.map]
  · intro h
    simp [rankOne, profitInvestment, not_lt.mpr h, Except.map, put_ne_call]
  · intro h
    simp [rankOne, profitInvestment, not_lt.mpr h, Except.map, cc_ne_call, cc_ne_put]
  · intro h
    simp [rankOne, profitInvestment, not_lt.mpr h, Except.map, csp_ne_call,
      csp_ne_put, csp_ne_cc]
  · intro h
    simp [calculate_option_value, not_lt.mpr h, Except.map, annualize_zero]
  · intro h
    simp [calculate_option_value, not_lt.mpr h, Except.map, annualize_zero, put_ne_call]
  · simp [calculate_option_value, Except.map, cc_ne_call, cc_ne_put]
  · simp [calculate_option_value, Except.map, csp_ne_call, csp_ne_put, csp_ne_cc]

/-- Claim C3, witness: the amended statement at a candidate with
negative strike and premium, an evaluator record with zero premium, and
a 30-day horizon, all hypotheses discharged. -/
theorem c3_witness :
    ((rankOne "call" 30 10 ⟨-1, -1, 0, 0, 0⟩).map
      (fun r => (r.percent_return, r.annualized_return)) = .ok (0, 0)) ∧
    ((rankOne "put" 30 10 ⟨-1, -1, 0, 0, 0⟩).map
      (fun r => (r.percent_return, r.annualized_return)) = .ok (0, 0)) ∧
    ((rankOne "covered_call" 30 10 ⟨-1, -1, 0, 0, 0⟩).map
      (fun r => (r.percent_return, r.annualized_return)) = .ok (0, 0)) ∧
    ((rankOne "cash_secured_put" 30 10 ⟨-1, -1, 0, 0, 0⟩).map
      (fun r => (r.percent_return, r.annualized_return)) = .ok (0, 0)) ∧
    ((calculate_option_value "call" 10 ⟨none, 5, 0⟩ 30 0).map
      (fun r => (r.percent_return, r.annualized_return)) = .ok (0, 0)) ∧
    ((calculate_option_value "put" 10 ⟨none, 5, 0⟩ 30 0).map
      (fun r => (r.percent_return, r.annualized_return)) = .ok (0, 0)) ∧
    (calculate_option_value "covered_call" 10 ⟨some 0, 7, 2⟩ 30 0
      = .error .zeroDivisionError) ∧
    (calculate_option_value "cash_secured_put" 10 ⟨none, 0, 2⟩ 30 0
      = .error .zeroDivisionError) := by
  obtain ⟨h1, h2, h3, h4, h5, h6, h7, h8⟩ :=
    c3_degenerate_base_amended 30 10 ⟨-1, -1, 0, 0, 0⟩ ⟨none, 5, 0⟩ 7 2 none 30 0
  exact ⟨h1 (by norm_num), h2 (by norm_num), h3 (by norm_num), h4 (by norm_num),
    h5 (by norm_num), h6 (by norm_num), h7, h8⟩

/-- Claim C4: a successful filter output is sorted ascending by strike;
every returned candidate satisfies the budget bound and stems from an
input contract; with a target breakeven every call candidate satisfies
`strike + premium < T` and every put candidate `strike - premium > T`,
both strictly; without a target the admissibility flag passes every
contract; and the output is a stable permutation of the kept candidates
in input order (ties on strike keep their original relative order). -/
theorem c4_filter_output (opts : List Contract) (s : String) (inv : ℚ)
    (sp tb : Option ℚ) (l : List Candidate)
    (h : filter_options_by_investment opts s inv sp tb = .ok l) :
    List.Pairwise (fun a b => a.strike ≤ b.strike) l ∧
    (∀ c ∈ l, c.cost ≤ inv ∧ ∃ o ∈ opts, c.strike = o.strike ∧ c.premium = o.premium) ∧
    (∀ T : ℚ, tb = some T → s = "call" → ∀ c ∈ l, c.strike + c.premium < T) ∧
    (∀ T : ℚ, tb = some T → s = "put" → ∀ c ∈ l, c.strike - c.premium > T) ∧
    (∀ K P c be : ℚ, ∀ m : Bool,
      costBreakeven s K P sp none = .ok (c, be, m) → m = true) ∧
    (∃ k, filterLoop s inv sp tb opts = .ok k ∧ l.Perm k ∧
      ∀ a b : Candidate, [a, b].Sublist k → a.strike ≤ b.strike → [a, b].Sublist l) := by
  obtain ⟨k, hL, rfl⟩ := filter_ok_cases h
  have hmem : ∀ c ∈ k.mergeSort strikeLE, c ∈ k := fun c hc => List.mem_mergeSort.mp hc
  have hsound := filterLoop_sound hL
  refine ⟨?_, ?_, ?_, ?_, ?_, k, hL, List.mergeSort_perm k strikeLE, ?_⟩
  · have := List.sorted_mergeSort strikeLE_trans strikeLE_total k
    exact this.imp (by intro a b hab; simpa [strikeLE] using hab)
  · intro c hc
    obtain ⟨hb, _, o, ho, hst, hp, _⟩ := hsound c (hmem c hc)
    exact ⟨hb, o, ho, hst, hp⟩
  · rintro T rfl rfl c hc
    obtain ⟨_, _, o, _, hst, hp, hcb⟩ := hsound c (hmem c hc)
    rw [hst, hp]
    exact call_breakeven_lt hcb
  · rintro T rfl rfl c hc
    obtain ⟨_, _, o, _, hst, hp, hcb⟩ := hsound c (hmem c hc)
    rw [hst, hp]
    exact put_breakeven_gt hcb
  · intro K P c be m hcb
    exact meets_true_of_no_target hcb
  · intro a b hsub hab
    exact List.pair_sublist_mergeSort strikeLE_trans strikeLE_total
      (by simpa [strikeLE] using hab) hsub

/-- Claim C4, witness: a concrete run with strategy "call", budget 500
and target breakeven 15, which keeps exactly the contract with strike 10
and premium 2 (the strike-20 contract fails the breakeven test). -/
theorem c4_witness :
    List.Pairwise (fun a b => a.strike ≤ b.strike)
      [(⟨10, 2, 12, 200, 300⟩ : Candidate)] ∧
    (∀ c ∈ [(⟨10, 2, 12, 200, 300⟩ : Candidate)], c.cost ≤ 500 ∧
      ∃ o ∈ [(⟨20, 1⟩ : Contract), ⟨10, 2⟩], c.strike = o.strike ∧ c.premium = o.premium) ∧
    (∀ T : ℚ, (some 15 : Option ℚ) = some T → "call" = "call" →
      ∀ c ∈ [(⟨10, 2, 12, 200, 300⟩ : Candidate)], c.strike + c.premium < T) ∧
    (∀ T : ℚ, (some 15 : Option ℚ) = some T → "call" = "put" →
      ∀ c ∈ [(⟨10, 2, 12, 200, 300⟩ : Candidate)], c.strike - c.premium > T) ∧
    (∀ K P c be : ℚ, ∀ m : Bool,
      costBreakeven "call" K P none none = .ok (c, be, m) → m = true) ∧
    (∃ k, filterLoop "call" 500 none (some 15) [⟨20, 1⟩, ⟨10, 2⟩] = .ok k ∧
      List.Perm [(⟨10, 2, 12, 200, 300⟩ : Candidate)] k ∧
      ∀ a b : Candidate, [a, b].Sublist k → a.strike ≤ b.strike →
        [a, b].Sublist [(⟨10, 2, 12, 200, 300⟩ : Candidate)]) :=
  c4_filter_output [⟨20, 1⟩, ⟨10, 2⟩] "call" 500 none (some 15)
    [⟨10, 2, 12, 200, 300⟩]
    (by norm_num [filter_options_by_investment, filterLoop, costBreakeven, Except.map])

/-- Claim C5: the filter computes cost and breakeven exactly per the
specification table, for strike K, premium P and entry price S: long
call cost 100·P, breakeven K+P; long put cost 100·P, breakeven K-P;
covered call cost 100·(S-P), breakeven S-P; cash-secured put cost
100·(K-P), breakeven K-P. -/
theorem c5_cost_breakeven_formulas (K P S : ℚ) (sp tb : Option ℚ) :
    ((costBreakeven "call" K P sp tb).map (fun x => (x.1, x.2.1))
        = .ok (100 * P, K + P)) ∧
    ((costBreakeven "put" K P sp tb).map (fun x => (x.1, x.2.1))
        = .ok (100 * P, K - P)) ∧
    ((costBreakeven "covered_call" K P (some S) tb).map (fun x => (x.1, x.2.1))
        = .ok (100 * (S - P), S - P)) ∧
    ((costBreakeven "cash_secured_put" K P sp tb).map (fun x => (x.1, x.2.1))
        = .ok (100 * (K - P), K - P)) := by
  refine ⟨?_, ?_, ?_, ?_⟩ <;>
  · simp [costBreakeven, Except.map, put_ne_call, cc_ne_call, cc_ne_put,
      csp_ne_call, csp_ne_put, csp_ne_cc]
    try ring_nf

/-- Claim C6: a successful ranker output is a permutation of the records
computed for its input (one per input candidate, so of the same length),
its annualized returns are non-increasing, and the descending sort is
stable: pairs already in descending order in the unsorted record list
keep their relative order, so ties retain the filter-stage order. -/
theorem c6_ranker_output (opts : List Candidate) (s : String) (F : ℚ) (e t : ℤ)
    (l : List RankedResult)
    (h : calculate_annualized_returns opts s F e t = .ok l) :
    ∃ pre, rankLoop s (ranker_days e t) F opts = .ok pre ∧
      pre.length = opts.length ∧ l.Perm pre ∧
      List.Pairwise (fun a b => b.annualized_return ≤ a.annualized_return) l ∧
      ∀ a b : RankedResult, [a, b].Sublist pre →
        b.annualized_return ≤ a.annualized_return → [a, b].Sublist l := by
  unfold calculate_annualized_returns at h
  cases hm : rankLoop s (ranker_days e t) F opts with
  | error e2 => rw [hm] at h; cases h
  | ok pre =>
    rw [hm] at h
    obtain rfl : pre.mergeSort annualizedDesc = l := Except.ok.inj h
    refine ⟨pre, rfl, rankLoop_length hm, List.mergeSort_perm pre annualizedDesc, ?_, ?_⟩
    · have := List.sorted_mergeSort annualizedDesc_trans annualizedDesc_total pre
      exact this.imp (by intro a b hab; simpa [annualizedDesc] using hab)
    · intro a b hsub hab
      exact List.pair_sublist_mergeSort annualizedDesc_trans annualizedDesc_total
        (by simpa [annualizedDesc] using hab) hsub

/-- Claim C6, witness: the ranker on the empty candidate list. -/
theorem c6_witness :
    ∃ pre, rankLoop "call" (ranker_days 30 0) 100 [] = .ok pre ∧
      pre.length = ([] : List Candidate).length ∧ ([] : List RankedResult).Perm pre ∧
      List.Pairwise (fun a b => b.annualized_return ≤ a.annualized_return)
        ([] : List RankedResult) ∧
      ∀ a b : RankedResult, [a, b].Sublist pre →
        b.annualized_return ≤ a.annualized_return →
        [a, b].Sublist ([] : List RankedResult) :=
  c6_ranker_output [] "call" 100 30 0 []
    (by simp [calculate_annualized_returns, rankLoop, Except.map])

/-- Claim C7: the shared payoff computation of the Return Ranker
reproduces the three worked examples exactly.  Long call with strike
100, premium 5, future price 120: intrinsic value 20, profit 15, percent
return 300.  Long put with strike 50, premium 2, future price 60:
intrinsic value 0, profit -2, percent return -100.  Cash-secured put
with strike 40, premium 1, future price 35: intrinsic value -5, profit
-4, investment base 40, percent return -10. -/
theorem c7_worked_examples :
    (profitInvestment "call" 120 ⟨100, 5, 105, 500, 0⟩ = .ok (20, 15, 5)) ∧
    ((rankOne "call" 30 120 ⟨100, 5, 105, 500, 0⟩).map (fun r => r.percent_return)
        = .ok 300) ∧
    (profitInvestment "put" 60 ⟨50, 2, 48, 200, 0⟩ = .ok (0, -2, 2)) ∧
    ((rankOne "put" 30 60 ⟨50, 2, 48, 200, 0⟩).map (fun r => r.percent_return)
        = .ok (-100)) ∧
    (profitInvestment "cash_secured_put" 35 ⟨40, 1, 39, 3900, 0⟩ = .ok (-5, -4, 40)) ∧
    ((rankOne "cash_secured_put" 30 35 ⟨40, 1, 39, 3900, 0⟩).map
        (fun r => r.percent_return) = .ok (-10)) := by
  refine ⟨?_, ?_, ?_, ?_, ?_, ?_⟩ <;>
    norm_num [profitInvestment, rankOne, Except.map, put_ne_call,
      csp_ne_call, csp_ne_put, csp_ne_cc]

/-- Claim C8: both day-count computations return an integer at least 1,
they agree with each other, an expiration on or before the evaluation
date is floored to exactly 1, and the day count is nonzero as a real
number so the division 365/daysToExpiration in the annualization formula
is always defined. -/
theorem c8_days_to_expiration (e t : ℤ) :
    1 ≤ ranker_days e t ∧ 1 ≤ evaluator_days e t ∧
    ranker_days e t = evaluator_days e t ∧
    (e ≤ t → ranker_days e t = 1 ∧ evaluator_days e t = 1) ∧
    (ranker_days e t : ℝ) ≠ 0 := by
  refine ⟨?_, ?_, days_eq e t, fun he => ⟨?_, ?_⟩, ?_⟩
  · simp only [ranker_days]
    omega
  · simp only [evaluator_days]
    omega
  · simp only [ranker_days]
    omega
  · simp only [evaluator_days]
    omega
  · rw [ne_eq, Int.cast_eq_zero]
    simp only [ranker_days]
    omega

/-- Claim C8, witness: an expiration date equal to the evaluation date is
floored to a one-day horizon. -/
theorem c8_witness :
    1 ≤ ranker_days 5 5 ∧ 1 ≤ evaluator_days 5 5 ∧
    ranker_days 5 5 = evaluator_days 5 5 ∧
    (ranker_days 5 5 = 1 ∧ evaluator_days 5 5 = 1) ∧
    (ranker_days 5 5 : ℝ) ≠ 0 := by
  obtain ⟨h1, h2, h3, h4, h5⟩ := c8_days_to_expiration 5 5
  exact ⟨h1, h2, h3, h4 (by norm_num), h5⟩

/-- Claim C9: every candidate a successful filter run returns records a
`remaining_budget` equal to the investment amount minus its cost, and
that remaining budget is non-negative since inclusion requires
`cost ≤ investment_amount`. -/
theorem c9_remaining_budget (opts : List Contract) (s : String) (inv : ℚ)
    (sp tb : Option ℚ) (l : List Candidate)
    (h : filter_options_by_investment opts s inv sp tb = .ok l) :
    ∀ c ∈ l, c.remaining_budget = inv - c.cost ∧ 0 ≤ c.remaining_budget := by
  obtain ⟨k, hL, rfl⟩ := filter_ok_cases h
  intro c hc
  obtain ⟨h1, h2, -⟩ := filterLoop_sound hL c (List.mem_mergeSort.mp hc)
  exact ⟨h2, by rw [h2]; linarith⟩

/-- Claim C9, witness: the kept candidate of a concrete filter run has
`remaining_budget = 500 - 200 = 300 ≥ 0`. -/
theorem c9_witness :
    (⟨10, 2, 12, 200, 300⟩ : Candidate).remaining_budget
        = 500 - (⟨10, 2, 12, 200, 300⟩ : Candidate).cost ∧
    0 ≤ (⟨10, 2, 12, 200, 300⟩ : Candidate).remaining_budget :=
  c9_remaining_budget [⟨10, 2⟩] "call" 500 none none [⟨10, 2, 12, 200, 300⟩]
    (by norm_num [filter_options_by_investment, filterLoop, costBreakeven, Except.map])
    ⟨10, 2, 12, 200, 300⟩ (by simp)

/-- Claim C10: for long calls and long puts with positive premium, the
ranker's profit is bounded below by the premium lost (intrinsic value is
never negative), hence the percent return is at least -100 and the
annualization base `1 + percentReturn/100` is non-negative, keeping the
real power in the annualization formula well-defined. -/
theorem c10_long_loss_bound (K P be co rb : ℚ) (d : ℤ) (F : ℚ) (hP : 0 < P) :
    (∃ r, rankOne "call" d F ⟨K, P, be, co, rb⟩ = .ok r ∧ -P ≤ r.profit ∧
      -100 ≤ r.percent_return ∧ 0 ≤ 1 + r.percent_return / 100) ∧
    (∃ r, rankOne "put" d F ⟨K, P, be, co, rb⟩ = .ok r ∧ -P ≤ r.profit ∧
      -100 ≤ r.percent_return ∧ 0 ≤ 1 + r.percent_return / 100) := by
  constructor
  · have hv : (0 : ℚ) ≤ if K < F then F - K else 0 := by
      split <;> linarith
    obtain ⟨b1, b2, b3⟩ := pct_bounds hv hP
    refine ⟨{ strike := K, premium := P, breakeven := be,
              profit := (if K < F then F - K else 0) - P,
              percent_return := ((if K < F then F - K else 0) - P) / P * 100,
              annualized_return :=
                annualize (((if K < F then F - K else 0) - P) / P * 100) d },
            ?_, b1, b2, b3⟩
    simp [rankOne, profitInvestment, hP]
  · have hv : (0 : ℚ) ≤ if F < K then K - F else 0 := by
      split <;> linarith
    obtain ⟨b1, b2, b3⟩ := pct_bounds hv hP
    refine ⟨{ strike := K, premium := P, breakeven := be,
              profit := (if F < K then K - F else 0) - P,
              percent_return := ((if F < K then K - F else 0) - P) / P * 100,
              annualized_return :=
                annualize (((if F < K then K - F else 0) - P) / P * 100) d },
            ?_, b1, b2, b3⟩
    simp [rankOne, profitInvestment, hP, put_ne_call]

/-- Claim C10, witness: the bounds at strike 100, premium 5, future price
0 and a 30-day horizon. -/
theorem c10_witness :
    (∃ r, rankOne "call" 30 0 ⟨100, 5, 105, 500, 0⟩ = .ok r ∧ -5 ≤ r.profit ∧
      -100 ≤ r.percent_return ∧ 0 ≤ 1 + r.percent_return / 100) ∧
    (∃ r, rankOne "put" 30 0 ⟨100, 5, 105, 500, 0⟩ = .ok r ∧ -5 ≤ r.profit ∧
      -100 ≤ r.percent_return ∧ 0 ≤ 1 + r.percent_return / 100) :=
  c10_long_loss_bound 100 5 105 500 0 30 0 (by norm_num)

end OptionsAnalyzer
